import Mathlib

/-!
Verification of the turbojet performance calculator (`lib.py`).

The library's single routine `compute_engine_performance` evaluates a
closed-form thermodynamic cycle at every high-pressure-compressor ratio of a
sweep, producing fifteen per-ratio output lists.  We embed the routine
shallowly over the reals: every local of the Python per-ratio block becomes a
Lean definition of the same name, taking the scalar inputs (as the structure
`EngineFlightInput`) and, where the local depends on it, the current sweep
ratio `pi_hpc`.  Python float exponentiation `**` with a real exponent is
`Real.rpow`; `np.sqrt` is `Real.sqrt`.  The one place the floating-point
semantics matters is the nozzle branch (`np.sqrt` of a negative radicand is
NaN and `NaN < 1` is `False`, so the choked branch is taken); we model that by
guarding the unchoked branch with `0 ≤ radicand`.
-/

namespace Turbojet

noncomputable section

/-- Ratio of specific heats (source: `gamma = 1.4`). -/
def gamma : ℝ := 1.4

/-- Gas constant, J/kg/K (source: `R = 287`). -/
def R : ℝ := 287

/-- Lower heating value of fuel, J/kg (source: `PCI = 48e6`). -/
def PCI : ℝ := 48e6

/-- Specific heat at constant pressure, J/kg/K (source: `cp = 1004`). -/
def cp : ℝ := 1004

/-- The scalar arguments of `compute_engine_performance` other than the sweep
list `pi_hpc_list`: mass flow `dm`, bypass ratio `beta`, fan ratio `pi_fan`,
combustor exit temperature `Tt4`, flight Mach `M0`, ambient statics
`Ts0`/`Ps0`, and reference Mach numbers `M1`, `M2`. -/
structure EngineFlightInput where
  dm : ℝ
  beta : ℝ
  pi_fan : ℝ
  Tt4 : ℝ
  M0 : ℝ
  Ts0 : ℝ
  Ps0 : ℝ
  M1 : ℝ
  M2 : ℝ

/-- Inlet total temperature: `Tt2 = Ts0 * (1 + (gamma - 1) / 2 * M0 ** 2)`. -/
def Tt2 (i : EngineFlightInput) : ℝ :=
  i.Ts0 * (1 + (gamma - 1) / 2 * i.M0 ^ 2)

/-- Inlet total pressure:
`Pt2 = Ps0 * (1 + (gamma - 1) / 2 * M0 ** 2) ** (gamma / (gamma - 1))`. -/
def Pt2 (i : EngineFlightInput) : ℝ :=
  i.Ps0 * (1 + (gamma - 1) / 2 * i.M0 ^ 2) ^ (gamma / (gamma - 1))

/-- Fan exit total pressure: `Pt13 = Pt2 * pi_fan`. -/
def Pt13 (i : EngineFlightInput) : ℝ := Pt2 i * i.pi_fan

/-- Fan exit total temperature: `Tt13 = Tt2 * pi_fan ** ((gamma - 1) / gamma)`. -/
def Tt13 (i : EngineFlightInput) : ℝ :=
  Tt2 i * i.pi_fan ^ ((gamma - 1) / gamma)

/-- Primary mass flow: `dm_fp = dm / (1 + beta)`. -/
def dm_fp (i : EngineFlightInput) : ℝ := i.dm / (1 + i.beta)

/-- Secondary mass flow: `dm_fs = dm - dm_fp`. -/
def dm_fs (i : EngineFlightInput) : ℝ := i.dm - dm_fp i

/-- HP compressor exit total pressure: `Pt3 = Pt13 * pi_hpc`. -/
def Pt3 (i : EngineFlightInput) (pi_hpc : ℝ) : ℝ := Pt13 i * pi_hpc

/-- HP compressor exit total temperature:
`Tt3 = Tt13 * pi_hpc ** ((gamma - 1) / gamma)`. -/
def Tt3 (i : EngineFlightInput) (pi_hpc : ℝ) : ℝ :=
  Tt13 i * pi_hpc ^ ((gamma - 1) / gamma)

/-- Combustor exit total pressure: `Pt4 = Pt3`. -/
def Pt4 (i : EngineFlightInput) (pi_hpc : ℝ) : ℝ := Pt3 i pi_hpc

/-- Fuel mass flow: `dm_f = (dm_fp * cp * (Tt4 - Tt3)) / (PCI - Tt4)`. -/
def dm_f (i : EngineFlightInput) (pi_hpc : ℝ) : ℝ :=
  (dm_fp i * cp * (i.Tt4 - Tt3 i pi_hpc)) / (PCI - i.Tt4)

/-- Fuel/air ratio: `f = dm_f / dm_fp`. -/
def f (i : EngineFlightInput) (pi_hpc : ℝ) : ℝ := dm_f i pi_hpc / dm_fp i

/-- HP turbine exit total temperature:
`Tt42 = Tt4 - ((Tt3 - Tt13) / (1 + f))`. -/
def Tt42 (i : EngineFlightInput) (pi_hpc : ℝ) : ℝ :=
  i.Tt4 - (Tt3 i pi_hpc - Tt13 i) / (1 + f i pi_hpc)

/-- HP turbine temperature ratio: `tau_hpt = Tt42 / Tt4`. -/
def tau_hpt (i : EngineFlightInput) (pi_hpc : ℝ) : ℝ := Tt42 i pi_hpc / i.Tt4

/-- HP turbine exit total pressure:
`Pt42 = Pt4 * tau_hpt ** (gamma / (gamma - 1))`. -/
def Pt42 (i : EngineFlightInput) (pi_hpc : ℝ) : ℝ :=
  Pt4 i pi_hpc * tau_hpt i pi_hpc ^ (gamma / (gamma - 1))

/-- LP turbine exit total temperature:
`Tt5 = Tt42 - ((1 + beta) * (Tt13 - Tt2)) / (1 + f)`. -/
def Tt5 (i : EngineFlightInput) (pi_hpc : ℝ) : ℝ :=
  Tt42 i pi_hpc - ((1 + i.beta) * (Tt13 i - Tt2 i)) / (1 + f i pi_hpc)

/-- LP turbine temperature ratio: `tau_lpt = Tt5 / Tt42`. -/
def tau_lpt (i : EngineFlightInput) (pi_hpc : ℝ) : ℝ :=
  Tt5 i pi_hpc / Tt42 i pi_hpc

/-- LP turbine exit total pressure:
`Pt5 = Pt42 * tau_lpt ** (gamma / (gamma - 1))`. -/
def Pt5 (i : EngineFlightInput) (pi_hpc : ℝ) : ℝ :=
  Pt42 i pi_hpc * tau_lpt i pi_hpc ^ (gamma / (gamma - 1))

/-- Primary nozzle reservoir temperature: `Tt8 = Tt5`. -/
def Tt8 (i : EngineFlightInput) (pi_hpc : ℝ) : ℝ := Tt5 i pi_hpc

/-- Primary nozzle reservoir pressure: `Pt8 = Pt5`. -/
def Pt8 (i : EngineFlightInput) (pi_hpc : ℝ) : ℝ := Pt5 i pi_hpc

/-- The expression under the square root in line 108 of the source,
transcribed with the source's parenthesisation:
`(2 / (gamma - 1)) * ((Pt8 / Ps0) ** ((gamma - 1) / gamma)) - 1` —
note the `- 1` binds after the multiplication by `2 / (gamma - 1)`. -/
def rad8 (i : EngineFlightInput) (pi_hpc : ℝ) : ℝ :=
  (2 / (gamma - 1)) * (Pt8 i pi_hpc / i.Ps0) ^ ((gamma - 1) / gamma) - 1

/-- Unchoked adiabatic exit Mach of the primary nozzle:
`M8_ad = np.sqrt(rad8)` (NaN when the radicand is negative). -/
def M8_ad (i : EngineFlightInput) (pi_hpc : ℝ) : ℝ := Real.sqrt (rad8 i pi_hpc)

/-- Primary nozzle exit Mach.  Source: `M8 = 1`, then `if M8_ad < 1: M8 = M8_ad`.
When `rad8 < 0`, `M8_ad` is NaN in the source and `NaN < 1` is `False`, so the
initial `M8 = 1` survives; the `0 ≤ rad8` guard models exactly that. -/
def M8 (i : EngineFlightInput) (pi_hpc : ℝ) : ℝ :=
  if 0 ≤ rad8 i pi_hpc ∧ M8_ad i pi_hpc < 1 then M8_ad i pi_hpc else 1

/-- Primary nozzle exit velocity: `V8 = M8 * np.sqrt(gamma * R * Tt8)`. -/
def V8 (i : EngineFlightInput) (pi_hpc : ℝ) : ℝ :=
  M8 i pi_hpc * Real.sqrt (gamma * R * Tt8 i pi_hpc)

/-- Secondary nozzle reservoir temperature: `Tt18 = Tt13`. -/
def Tt18 (i : EngineFlightInput) : ℝ := Tt13 i

/-- Secondary nozzle reservoir pressure: `Pt18 = Pt13`. -/
def Pt18 (i : EngineFlightInput) : ℝ := Pt13 i

/-- Radicand of line 119 of the source, same parenthesisation as `rad8`. -/
def rad18 (i : EngineFlightInput) : ℝ :=
  (2 / (gamma - 1)) * (Pt18 i / i.Ps0) ^ ((gamma - 1) / gamma) - 1

/-- Unchoked adiabatic exit Mach of the secondary nozzle. -/
def M18_ad (i : EngineFlightInput) : ℝ := Real.sqrt (rad18 i)

/-- Secondary nozzle exit Mach, same branch structure as `M8`. -/
def M18 (i : EngineFlightInput) : ℝ :=
  if 0 ≤ rad18 i ∧ M18_ad i < 1 then M18_ad i else 1

/-- Secondary nozzle exit velocity: `V18 = M18 * np.sqrt(gamma * R * Tt18)`. -/
def V18 (i : EngineFlightInput) : ℝ :=
  M18 i * Real.sqrt (gamma * R * Tt18 i)

/-- Freestream velocity: `V0 = M0 * np.sqrt(gamma * R * Ts0)`. -/
def V0 (i : EngineFlightInput) : ℝ := i.M0 * Real.sqrt (gamma * R * i.Ts0)

/-- Primary flow thrust: `T_fp = (1 + f) * dm_fp * V8`. -/
def T_fp (i : EngineFlightInput) (pi_hpc : ℝ) : ℝ :=
  (1 + f i pi_hpc) * dm_fp i * V8 i pi_hpc

/-- Secondary flow thrust: `T_fs = dm_fs * V18`. -/
def T_fs (i : EngineFlightInput) : ℝ := dm_fs i * V18 i

/-- Net thrust: `T = T_fp + T_fs - dm * V0`. -/
def T (i : EngineFlightInput) (pi_hpc : ℝ) : ℝ :=
  T_fp i pi_hpc + T_fs i - i.dm * V0 i

/-- Specific thrust: `ST = T / dm`. -/
def ST (i : EngineFlightInput) (pi_hpc : ℝ) : ℝ := T i pi_hpc / i.dm

/-- Thrust-specific fuel consumption: `TSFC = dm_f / ST`. -/
def TSFC (i : EngineFlightInput) (pi_hpc : ℝ) : ℝ :=
  dm_f i pi_hpc / ST i pi_hpc

/-- Propulsive power: `Wprop = T * V0`. -/
def Wprop (i : EngineFlightInput) (pi_hpc : ℝ) : ℝ := T i pi_hpc * V0 i

/-- Kinetic power:
`Wcin = ((1 + f) * dm_fp * V8 ** 2) / 2 + (dm_fs * V18 ** 2) / 2 - (dm * V0 ** 2) / 2`. -/
def Wcin (i : EngineFlightInput) (pi_hpc : ℝ) : ℝ :=
  ((1 + f i pi_hpc) * dm_fp i * V8 i pi_hpc ^ 2) / 2
    + (dm_fs i * V18 i ^ 2) / 2 - (i.dm * V0 i ^ 2) / 2

/-- Thermal power: `Wth = dm_f * PCI`. -/
def Wth (i : EngineFlightInput) (pi_hpc : ℝ) : ℝ := dm_f i pi_hpc * PCI

/-- Propulsive efficiency: `nprop = Wprop / Wcin`. -/
def nprop (i : EngineFlightInput) (pi_hpc : ℝ) : ℝ :=
  Wprop i pi_hpc / Wcin i pi_hpc

/-- Thermal efficiency: `nth = Wcin / Wth`. -/
def nth (i : EngineFlightInput) (pi_hpc : ℝ) : ℝ :=
  Wcin i pi_hpc / Wth i pi_hpc

/-- Global efficiency: `nglob = Wprop / Wth`. -/
def nglob (i : EngineFlightInput) (pi_hpc : ℝ) : ℝ :=
  Wprop i pi_hpc / Wth i pi_hpc

/-- Corrected-flow factor at `M1`:
`Dr1 = np.sqrt(gamma / R) * M1 * (1 + ((gamma - 1) / 2) * M1 ** 2) ** (-(gamma + 1) / (2 * (gamma - 1)))`. -/
def Dr1 (i : EngineFlightInput) : ℝ :=
  Real.sqrt (gamma / R) * i.M1
    * (1 + ((gamma - 1) / 2) * i.M1 ^ 2) ^ (-(gamma + 1) / (2 * (gamma - 1)))

/-- Corrected-flow factor at `M2`, same formula as `Dr1`. -/
def Dr2 (i : EngineFlightInput) : ℝ :=
  Real.sqrt (gamma / R) * i.M2
    * (1 + ((gamma - 1) / 2) * i.M2 ^ 2) ^ (-(gamma + 1) / (2 * (gamma - 1)))

/-- Area at station 1: `A1 = (dm * np.sqrt(Tt2)) / (Pt2 * Dr1)`. -/
def A1 (i : EngineFlightInput) : ℝ :=
  (i.dm * Real.sqrt (Tt2 i)) / (Pt2 i * Dr1 i)

/-- Area at station 2: `A2 = (dm * np.sqrt(Tt2)) / (Pt2 * Dr2)`. -/
def A2 (i : EngineFlightInput) : ℝ :=
  (i.dm * Real.sqrt (Tt2 i)) / (Pt2 i * Dr2 i)

/-- Primary nozzle area: `A8 = ((1 + f) * dm_fp * np.sqrt(Tt8)) / Pt8`. -/
def A8 (i : EngineFlightInput) (pi_hpc : ℝ) : ℝ :=
  ((1 + f i pi_hpc) * dm_fp i * Real.sqrt (Tt8 i pi_hpc)) / Pt8 i pi_hpc

/-- Secondary nozzle area: `A18 = (dm_fs * np.sqrt(Tt18)) / Pt18`. -/
def A18 (i : EngineFlightInput) : ℝ :=
  (dm_fs i * Real.sqrt (Tt18 i)) / Pt18 i

/-- The fifteen values appended to the result lists for one sweep ratio, in
the order the source appends them. -/
structure CyclePoint where
  T : ℝ
  T_fp : ℝ
  T_fs : ℝ
  ST : ℝ
  TSFC : ℝ
  Wprop : ℝ
  Wcin : ℝ
  Wth : ℝ
  nprop : ℝ
  nth : ℝ
  nglob : ℝ
  A1 : ℝ
  A2 : ℝ
  A8 : ℝ
  A18 : ℝ

/-- The body of the `for pi_hpc in pi_hpc_list` loop: all fifteen quantities
appended for the current ratio. -/
def cyclePoint (i : EngineFlightInput) (pi_hpc : ℝ) : CyclePoint :=
  ⟨T i pi_hpc, T_fp i pi_hpc, T_fs i, ST i pi_hpc, TSFC i pi_hpc,
   Wprop i pi_hpc, Wcin i pi_hpc, Wth i pi_hpc,
   nprop i pi_hpc, nth i pi_hpc, nglob i pi_hpc,
   A1 i, A2 i, A8 i pi_hpc, A18 i⟩

/-- The `results` dictionary: fifteen named lists. -/
structure CycleResults where
  T_list : List ℝ
  T_fp_list : List ℝ
  T_fs_list : List ℝ
  ST_list : List ℝ
  TSFC_list : List ℝ
  Wprop_list : List ℝ
  Wcin_list : List ℝ
  Wth_list : List ℝ
  nprop_list : List ℝ
  nth_list : List ℝ
  nglob_list : List ℝ
  A1_list : List ℝ
  A2_list : List ℝ
  A8_list : List ℝ
  A18_list : List ℝ

/-- The initial `results` value: every list empty. -/
def emptyResults : CycleResults :=
  ⟨[], [], [], [], [], [], [], [], [], [], [], [], [], [], []⟩

/-- The fifteen `results[...].append(...)` statements at the end of one loop
iteration. -/
def appendPoint (res : CycleResults) (p : CyclePoint) : CycleResults :=
  ⟨res.T_list ++ [p.T], res.T_fp_list ++ [p.T_fp], res.T_fs_list ++ [p.T_fs],
   res.ST_list ++ [p.ST], res.TSFC_list ++ [p.TSFC],
   res.Wprop_list ++ [p.Wprop], res.Wcin_list ++ [p.Wcin],
   res.Wth_list ++ [p.Wth], res.nprop_list ++ [p.nprop],
   res.nth_list ++ [p.nth], res.nglob_list ++ [p.nglob],
   res.A1_list ++ [p.A1], res.A2_list ++ [p.A2], res.A8_list ++ [p.A8],
   res.A18_list ++ [p.A18]⟩

/-- `compute_engine_performance`: fold of the loop body, starting from the
empty `results` dictionary. -/
def compute_engine_performance (i : EngineFlightInput)
    (pi_hpc_list : List ℝ) : CycleResults :=
  pi_hpc_list.foldl (fun res pi_hpc => appendPoint res (cyclePoint i pi_hpc))
    emptyResults

/-- Concrete input with `M0 = 0` and unit fan/compressor ratios, so that every
total condition is rational: `dm=2, beta=1, pi_fan=1, Tt4=1300, M0=0, Ts0=300,
Ps0=89876, M1=0.8, M2=0.5`. -/
def inpA : EngineFlightInput := ⟨2, 1, 1, 1300, 0, 300, 89876, 0.8, 0.5⟩

/-- Same as `inpA` except the combustor exit temperature `Tt4 = 200` sits
below the compressor exit temperature `Tt3 = 300`. -/
def inpB : EngineFlightInput := ⟨2, 1, 1, 200, 0, 300, 89876, 0.8, 0.5⟩

/-- The reference scenario of the spec and of `main.py`: `dm=210, beta=5,
pi_fan=1.5, Tt4=1300, M0=0.85, Ts0=280.65, Ps0=89876, M1=0.8, M2=0.5`. -/
def inpC : EngineFlightInput := ⟨210, 5, 1.5, 1300, 0.85, 280.65, 89876, 0.8, 0.5⟩

/-- The radicand of the primary-nozzle Mach formula as the spec words it:
`(2/(γ−1)) · ((Pt8/Ps0)^((γ−1)/γ) − 1)`, the subtraction of 1 applied inside
the factor multiplied by `2/(γ−1)`.  Kept separate from `rad8`, which
transcribes the source's parenthesisation, so the two can be compared. -/
def rad8_claimed (i : EngineFlightInput) (pi_hpc : ℝ) : ℝ :=
  (2 / (gamma - 1)) * ((Pt8 i pi_hpc / i.Ps0) ^ ((gamma - 1) / gamma) - 1)

end

/-- Folding the loop body over a ratio list, from any accumulator, appends to
each field the mapped list of that field's per-point values. -/
lemma foldl_appendPoint (i : EngineFlightInput) (l : List ℝ) :
    ∀ acc : CycleResults,
      List.foldl (fun res r => appendPoint res (cyclePoint i r)) acc l =
        ⟨acc.T_list ++ l.map fun r => (cyclePoint i r).T,
         acc.T_fp_list ++ l.map fun r => (cyclePoint i r).T_fp,
         acc.T_fs_list ++ l.map fun r => (cyclePoint i r).T_fs,
         acc.ST_list ++ l.map fun r => (cyclePoint i r).ST,
         acc.TSFC_list ++ l.map fun r => (cyclePoint i r).TSFC,
         acc.Wprop_list ++ l.map fun r => (cyclePoint i r).Wprop,
         acc.Wcin_list ++ l.map fun r => (cyclePoint i r).Wcin,
         acc.Wth_list ++ l.map fun r => (cyclePoint i r).Wth,
         acc.nprop_list ++ l.map fun r => (cyclePoint i r).nprop,
         acc.nth_list ++ l.map fun r => (cyclePoint i r).nth,
         acc.nglob_list ++ l.map fun r => (cyclePoint i r).nglob,
         acc.A1_list ++ l.map fun r => (cyclePoint i r).A1,
         acc.A2_list ++ l.map fun r => (cyclePoint i r).A2,
         acc.A8_list ++ l.map fun r => (cyclePoint i r).A8,
         acc.A18_list ++ l.map fun r => (cyclePoint i r).A18⟩ := by
  induction l with
  | nil => intro acc; simp
  | cons r l ih =>
      intro acc
      rw [List.foldl_cons, ih]
      simp [appendPoint]

/-- `compute_engine_performance` produces exactly the mapped per-point lists. -/
lemma compute_eq_map (i : EngineFlightInput) (l : List ℝ) :
    compute_engine_performance i l =
      ⟨l.map fun r => (cyclePoint i r).T,
       l.map fun r => (cyclePoint i r).T_fp,
       l.map fun r => (cyclePoint i r).T_fs,
       l.map fun r => (cyclePoint i r).ST,
       l.map fun r => (cyclePoint i r).TSFC,
       l.map fun r => (cyclePoint i r).Wprop,
       l.map fun r => (cyclePoint i r).Wcin,
       l.map fun r => (cyclePoint i r).Wth,
       l.map fun r => (cyclePoint i r).nprop,
       l.map fun r => (cyclePoint i r).nth,
       l.map fun r => (cyclePoint i r).nglob,
       l.map fun r => (cyclePoint i r).A1,
       l.map fun r => (cyclePoint i r).A2,
       l.map fun r => (cyclePoint i r).A8,
       l.map fun r => (cyclePoint i r).A18⟩ := by
  rw [compute_engine_performance, foldl_appendPoint]
  rfl

lemma sqrt_four : Real.sqrt 4 = 2 := by
  rw [show (4 : ℝ) = 2 ^ 2 by norm_num, Real.sqrt_sq (by norm_num : (0:ℝ) ≤ 2)]

/-- Structure updates that keep every field but `Tt4` leave `Tt3` unchanged:
`Tt3` reads only `Ts0`, `M0`, `pi_fan` and the sweep ratio. -/
lemma Tt3_update_Tt4 (i : EngineFlightInput) (x r : ℝ) :
    Tt3 { i with Tt4 := x } r = Tt3 i r := rfl

lemma dm_fp_update_Tt4 (i : EngineFlightInput) (x : ℝ) :
    dm_fp { i with Tt4 := x } = dm_fp i := rfl

/-- At `M0 = 0`, `pi_fan = 1` and sweep ratio `1`, the compressor exit total
temperature is the ambient static temperature. -/
lemma Tt3_unit (i : EngineFlightInput) (h0 : i.M0 = 0) (h1 : i.pi_fan = 1) :
    Tt3 i 1 = i.Ts0 := by
  rw [Tt3, Tt13, Tt2, h0, h1]
  norm_num [Real.one_rpow]

lemma Pt3_unit (i : EngineFlightInput) (h0 : i.M0 = 0) (h1 : i.pi_fan = 1) :
    Pt3 i 1 = i.Ps0 := by
  rw [Pt3, Pt13, Pt2, h0, h1]
  norm_num [Real.one_rpow]

lemma inpA_Tt2 : Tt2 inpA = 300 := by norm_num [Tt2, inpA, gamma]

lemma inpA_Tt13 : Tt13 inpA = 300 := by
  rw [Tt13, inpA_Tt2, show inpA.pi_fan = 1 from rfl, Real.one_rpow, mul_one]

lemma inpA_Tt3 : Tt3 inpA 1 = 300 := Tt3_unit inpA rfl rfl

lemma inpA_Pt3 : Pt3 inpA 1 = 89876 := Pt3_unit inpA rfl rfl

lemma inpA_dm_fp : dm_fp inpA = 1 := by norm_num [dm_fp, inpA]

lemma inpA_dm_fs : dm_fs inpA = 1 := by rw [dm_fs, inpA_dm_fp]; norm_num [inpA]

lemma inpA_dm_f : dm_f inpA 1 = 10040 / 479987 := by
  rw [dm_f, inpA_dm_fp, inpA_Tt3]
  norm_num [inpA, cp, PCI]

lemma inpA_f : f inpA 1 = 10040 / 479987 := by
  rw [f, inpA_dm_f, inpA_dm_fp, div_one]

lemma inpA_f_pos : 0 < f inpA 1 := by rw [inpA_f]; norm_num

lemma inpA_Tt42 : Tt42 inpA 1 = 1300 := by
  rw [Tt42, inpA_Tt3, inpA_Tt13]
  norm_num [inpA]

lemma inpA_tau_hpt : tau_hpt inpA 1 = 1 := by
  rw [tau_hpt, inpA_Tt42]; norm_num [inpA]

lemma inpA_Pt42 : Pt42 inpA 1 = 89876 := by
  rw [Pt42, Pt4, inpA_Pt3, inpA_tau_hpt, Real.one_rpow, mul_one]

lemma inpA_Tt5 : Tt5 inpA 1 = 1300 := by
  rw [Tt5, inpA_Tt42, inpA_Tt13, inpA_Tt2]
  norm_num

lemma inpA_tau_lpt : tau_lpt inpA 1 = 1 := by
  rw [tau_lpt, inpA_Tt5, inpA_Tt42]; norm_num

lemma inpA_Pt5 : Pt5 inpA 1 = 89876 := by
  rw [Pt5, inpA_Pt42, inpA_tau_lpt, Real.one_rpow, mul_one]

lemma inpA_Tt8 : Tt8 inpA 1 = 1300 := inpA_Tt5

lemma inpA_Pt8 : Pt8 inpA 1 = 89876 := inpA_Pt5

lemma inpA_rad8 : rad8 inpA 1 = 4 := by
  rw [rad8, inpA_Pt8, show inpA.Ps0 = 89876 from rfl,
    div_self (by norm_num : (89876:ℝ) ≠ 0), Real.one_rpow]
  norm_num [gamma]

lemma inpA_M8_ad : M8_ad inpA 1 = 2 := by rw [M8_ad, inpA_rad8, sqrt_four]

lemma inpA_M8 : M8 inpA 1 = 1 := by
  rw [M8, if_neg]
  rintro ⟨-, h⟩
  rw [inpA_M8_ad] at h
  norm_num at h

lemma inpA_V8 : V8 inpA 1 = Real.sqrt 522340 := by
  rw [V8, inpA_M8, inpA_Tt8, one_mul]
  norm_num [gamma, R]

lemma inpA_V8_pos : 0 < V8 inpA 1 := by
  rw [inpA_V8]
  exact Real.sqrt_pos.mpr (by norm_num)

lemma inpA_V8_sq : V8 inpA 1 ^ 2 = 522340 := by
  rw [inpA_V8, Real.sq_sqrt (by norm_num : (0:ℝ) ≤ 522340)]

lemma inpA_Tt18 : Tt18 inpA = 300 := inpA_Tt13

lemma inpA_Pt18 : Pt18 inpA = 89876 := by
  rw [Pt18, Pt13, Pt2, show inpA.M0 = 0 from rfl, show inpA.pi_fan = 1 from rfl]
  norm_num [Real.one_rpow, inpA]

lemma inpA_rad18 : rad18 inpA = 4 := by
  rw [rad18, inpA_Pt18, show inpA.Ps0 = 89876 from rfl,
    div_self (by norm_num : (89876:ℝ) ≠ 0), Real.one_rpow]
  norm_num [gamma]

lemma inpA_M18_ad : M18_ad inpA = 2 := by rw [M18_ad, inpA_rad18, sqrt_four]

lemma inpA_M18 : M18 inpA = 1 := by
  rw [M18, if_neg]
  rintro ⟨-, h⟩
  rw [inpA_M18_ad] at h
  norm_num at h

lemma inpA_V18 : V18 inpA = Real.sqrt 120540 := by
  rw [V18, inpA_M18, inpA_Tt18, one_mul]
  norm_num [gamma, R]

lemma inpA_V18_pos : 0 < V18 inpA := by
  rw [inpA_V18]
  exact Real.sqrt_pos.mpr (by norm_num)

lemma inpA_V18_sq : V18 inpA ^ 2 = 120540 := by
  rw [inpA_V18, Real.sq_sqrt (by norm_num : (0:ℝ) ≤ 120540)]

lemma inpA_V0 : V0 inpA = 0 := by
  rw [V0, show inpA.M0 = 0 from rfl, zero_mul]

lemma inpA_T_pos : 0 < T inpA 1 := by
  rw [T, T_fp, T_fs, inpA_dm_fp, inpA_dm_fs, inpA_V0, mul_one, one_mul,
    mul_zero, sub_zero]
  exact add_pos (mul_pos (by linarith [inpA_f_pos]) inpA_V8_pos) inpA_V18_pos

lemma inpA_T_ne : T inpA 1 ≠ 0 := ne_of_gt inpA_T_pos

lemma inpA_Wcin_pos : 0 < Wcin inpA 1 := by
  rw [Wcin, inpA_dm_fp, inpA_dm_fs, inpA_V8_sq, inpA_V18_sq, inpA_V0]
  have hf := inpA_f_pos
  nlinarith

lemma inpA_Wth_pos : 0 < Wth inpA 1 := by
  rw [Wth, inpA_dm_f, PCI]
  norm_num

lemma inpB_Tt3 : Tt3 inpB 1 = 300 := Tt3_unit inpB rfl rfl

lemma inpB_dm_fp : dm_fp inpB = 1 := by norm_num [dm_fp, inpB]

lemma inpB_dm_f : dm_f inpB 1 = -(502 / 239999) := by
  rw [dm_f, inpB_dm_fp, inpB_Tt3]
  norm_num [inpB, cp, PCI]

/-- Rational exponent 7/2 turns into the square root of the seventh power. -/
lemma rpow_seven_halves (x : ℝ) (hx : 0 ≤ x) :
    x ^ ((7:ℝ)/2) = Real.sqrt (x ^ (7:ℕ)) := by
  rw [Real.sqrt_eq_rpow, ← Real.rpow_natCast x 7, ← Real.rpow_mul hx]
  norm_num

lemma inpC_Tt2 : Tt2 inpC = 321.203925 := by
  norm_num [Tt2, inpC, gamma]

lemma inpC_Pt2_sqrt : Pt2 inpC = 89876 * Real.sqrt ((1.1445:ℝ) ^ (7:ℕ)) := by
  rw [Pt2, show inpC.Ps0 = 89876 from rfl,
    show (1 + (gamma - 1) / 2 * inpC.M0 ^ 2 : ℝ) = 1.1445 by
      norm_num [inpC, gamma],
    show gamma / (gamma - 1) = (7:ℝ)/2 by norm_num [gamma],
    rpow_seven_halves _ (by norm_num)]

lemma inpC_Pt2_lb : 144144 < Pt2 inpC := by
  have h1 : (144144:ℝ)/89876 < Real.sqrt ((1.1445:ℝ) ^ (7:ℕ)) :=
    (Real.lt_sqrt (by norm_num)).mpr (by norm_num)
  have h2 := mul_lt_mul_of_pos_left h1 (show (0:ℝ) < 89876 by norm_num)
  rw [inpC_Pt2_sqrt]
  calc (144144:ℝ) = 89876 * ((144144:ℝ)/89876) := by norm_num
  _ < 89876 * Real.sqrt ((1.1445:ℝ) ^ (7:ℕ)) := h2

lemma inpC_Pt2_ub : Pt2 inpC < 144146 := by
  have h1 : Real.sqrt ((1.1445:ℝ) ^ (7:ℕ)) < (144146:ℝ)/89876 :=
    (Real.sqrt_lt' (by norm_num)).mpr (by norm_num)
  have h2 := mul_lt_mul_of_pos_left h1 (show (0:ℝ) < 89876 by norm_num)
  rw [inpC_Pt2_sqrt]
  calc 89876 * Real.sqrt ((1.1445:ℝ) ^ (7:ℕ))
      < 89876 * ((144146:ℝ)/89876) := h2
  _ = 144146 := by norm_num

/-- Claim C1: the source's primary-nozzle radicand is NOT
`(2/(γ−1))·((Pt8/Ps0)^((γ−1)/γ) − 1)`: in the code the `- 1` is applied
after the multiplication by `2/(γ−1)`.  At an input whose nozzle pressure
ratio `Pt8/Ps0` is exactly 1, the code's radicand is `4` (adiabatic Mach `2`,
clamped to `M8 = 1`), while the formula of the claim gives radicand `0`
(adiabatic Mach `0`, an unchoked solution below 1). -/
theorem c1_radicand_divergence :
    rad8 inpA 1 = 4 ∧ M8_ad inpA 1 = 2 ∧ M8 inpA 1 = 1 ∧
    rad8_claimed inpA 1 = 0 ∧ Real.sqrt (rad8_claimed inpA 1) = 0 := by
  have hc : rad8_claimed inpA 1 = 0 := by
    rw [rad8_claimed, inpA_Pt8, show inpA.Ps0 = 89876 from rfl,
      div_self (by norm_num : (89876:ℝ) ≠ 0), Real.one_rpow]
    norm_num
  exact ⟨inpA_rad8, inpA_M8_ad, inpA_M8, hc, by rw [hc, Real.sqrt_zero]⟩

/-- Claim C2: for each nozzle, whenever the adiabatic solution has a negative
radicand (NaN in the source) or is at least 1, the reported exit Mach is
exactly 1 and the exit velocity is `sqrt(γ·R·T)` with the corresponding total
temperature; otherwise the exit Mach equals the adiabatic solution. -/
theorem c2_choked_clamp (i : EngineFlightInput) (r : ℝ) :
    ((rad8 i r < 0 ∨ 1 ≤ M8_ad i r) →
        M8 i r = 1 ∧ V8 i r = Real.sqrt (gamma * R * Tt8 i r)) ∧
    (0 ≤ rad8 i r → M8_ad i r < 1 → M8 i r = M8_ad i r) ∧
    ((rad18 i < 0 ∨ 1 ≤ M18_ad i) →
        M18 i = 1 ∧ V18 i = Real.sqrt (gamma * R * Tt18 i)) ∧
    (0 ≤ rad18 i → M18_ad i < 1 → M18 i = M18_ad i) := by
  refine ⟨?_, ?_, ?_, ?_⟩
  · intro h
    have hM : M8 i r = 1 := by
      rw [M8, if_neg]
      rintro ⟨h0, h1⟩
      rcases h with h | h
      · linarith
      · linarith
    exact ⟨hM, by rw [V8, hM, one_mul]⟩
  · intro h0 h1
    rw [M8, if_pos ⟨h0, h1⟩]
  · intro h
    have hM : M18 i = 1 := by
      rw [M18, if_neg]
      rintro ⟨h0, h1⟩
      rcases h with h | h
      · linarith
      · linarith
    exact ⟨hM, by rw [V18, hM, one_mul]⟩
  · intro h0 h1
    rw [M18, if_pos ⟨h0, h1⟩]

/-- Witness for C2 at a concrete input whose primary adiabatic solution is 2. -/
theorem c2_witness :
    (rad8 inpA 1 < 0 ∨ 1 ≤ M8_ad inpA 1) ∧
    M8 inpA 1 = 1 ∧ V8 inpA 1 = Real.sqrt (gamma * R * Tt8 inpA 1) :=
  have h : rad8 inpA 1 < 0 ∨ 1 ≤ M8_ad inpA 1 :=
    Or.inr (by rw [inpA_M8_ad]; norm_num)
  ⟨h, (c2_choked_clamp inpA 1).1 h⟩

/-- Claim C3: the evaluator returns one result per input ratio in the same
order — every one of the fifteen output lists is the map of the per-point
computation over the ratio list, so it has the ratio list's length and its
i-th entry is computed from the i-th ratio with the same input scalars. -/
theorem c3_index_aligned (i : EngineFlightInput) (l : List ℝ) :
    compute_engine_performance i l =
      ⟨l.map fun r => (cyclePoint i r).T,
       l.map fun r => (cyclePoint i r).T_fp,
       l.map fun r => (cyclePoint i r).T_fs,
       l.map fun r => (cyclePoint i r).ST,
       l.map fun r => (cyclePoint i r).TSFC,
       l.map fun r => (cyclePoint i r).Wprop,
       l.map fun r => (cyclePoint i r).Wcin,
       l.map fun r => (cyclePoint i r).Wth,
       l.map fun r => (cyclePoint i r).nprop,
       l.map fun r => (cyclePoint i r).nth,
       l.map fun r => (cyclePoint i r).nglob,
       l.map fun r => (cyclePoint i r).A1,
       l.map fun r => (cyclePoint i r).A2,
       l.map fun r => (cyclePoint i r).A8,
       l.map fun r => (cyclePoint i r).A18⟩ ∧
    (compute_engine_performance i l).T_list.length = l.length ∧
    (compute_engine_performance i l).T_fp_list.length = l.length ∧
    (compute_engine_performance i l).T_fs_list.length = l.length ∧
    (compute_engine_performance i l).ST_list.length = l.length ∧
    (compute_engine_performance i l).TSFC_list.length = l.length ∧
    (compute_engine_performance i l).Wprop_list.length = l.length ∧
    (compute_engine_performance i l).Wcin_list.length = l.length ∧
    (compute_engine_performance i l).Wth_list.length = l.length ∧
    (compute_engine_performance i l).nprop_list.length = l.length ∧
    (compute_engine_performance i l).nth_list.length = l.length ∧
    (compute_engine_performance i l).nglob_list.length = l.length ∧
    (compute_engine_performance i l).A1_list.length = l.length ∧
    (compute_engine_performance i l).A2_list.length = l.length ∧
    (compute_engine_performance i l).A8_list.length = l.length ∧
    (compute_engine_performance i l).A18_list.length = l.length := by
  refine ⟨compute_eq_map i l, ?_⟩
  rw [compute_eq_map i l]
  simp

/-- Claim C4: at every sweep point with nonzero kinetic and thermal powers,
the global efficiency is exactly the product of the propulsive and thermal
efficiencies. -/
theorem c4_nglob_eq_nprop_mul_nth (i : EngineFlightInput) (r : ℝ)
    (hWcin : Wcin i r ≠ 0) (hWth : Wth i r ≠ 0) :
    nglob i r = nprop i r * nth i r := by
  rw [nglob, nprop, nth]
  field_simp

/-- Witness for C4 at a concrete input with positive powers. -/
theorem c4_witness :
    Wcin inpA 1 ≠ 0 ∧ Wth inpA 1 ≠ 0 ∧
    nglob inpA 1 = nprop inpA 1 * nth inpA 1 :=
  ⟨ne_of_gt inpA_Wcin_pos, ne_of_gt inpA_Wth_pos,
    c4_nglob_eq_nprop_mul_nth inpA 1 (ne_of_gt inpA_Wcin_pos)
      (ne_of_gt inpA_Wth_pos)⟩

/-- Claim C5 fails on the code: with the combustor exit temperature (200 K)
below the compressor exit temperature (300 K), the evaluator neither raises
nor produces a non-finite value — it returns an ordinary finite negative fuel
mass flow `dm_f = −502/239999` and the sweep completes, appending a full
result point. -/
theorem c5_counterexample :
    dm_f inpB 1 = -(502 / 239999) ∧ dm_f inpB 1 < 0 ∧
    (compute_engine_performance inpB [1]).TSFC_list.length = 1 := by
  refine ⟨inpB_dm_f, by rw [inpB_dm_f]; norm_num, ?_⟩
  rw [compute_eq_map]
  simp

/-- Claim C5 amended: when `Tt4` is below `Tt3` (with `Tt4 < PCI` and a
positive primary mass flow) the evaluator returns normally and the computed
fuel mass flow is finite and strictly negative — its sign is the only flag. -/
theorem c5_amended (i : EngineFlightInput) (r : ℝ)
    (h1 : i.Tt4 < Tt3 i r) (h2 : i.Tt4 < PCI) (h3 : 0 < dm_fp i) :
    dm_f i r < 0 := by
  rw [dm_f]
  apply div_neg_of_neg_of_pos
  · have hcp : (0:ℝ) < cp := by norm_num [cp]
    nlinarith [mul_pos (mul_pos h3 hcp) (show 0 < Tt3 i r - i.Tt4 by linarith)]
  · linarith

/-- Witness for the amended C5 at the concrete input `inpB`. -/
theorem c5_witness :
    inpB.Tt4 < Tt3 inpB 1 ∧ inpB.Tt4 < PCI ∧ 0 < dm_fp inpB ∧
    dm_f inpB 1 < 0 := by
  have h1 : inpB.Tt4 < Tt3 inpB 1 := by
    rw [inpB_Tt3]; norm_num [inpB]
  have h2 : inpB.Tt4 < PCI := by norm_num [inpB, PCI]
  have h3 : (0:ℝ) < dm_fp inpB := by rw [inpB_dm_fp]; norm_num
  exact ⟨h1, h2, h3, c5_amended inpB 1 h1 h2 h3⟩

/-- Claim C6: with everything but `Tt4` fixed (so `Tt3` is fixed and below
`PCI`, and the primary mass flow is nonzero), the fuel/air ratio is strictly
increasing in the combustor exit temperature on `(−∞, PCI)`. -/
theorem c6_f_strict_mono (i : EngineFlightInput) (r T4a T4b : ℝ)
    (hfp : dm_fp i ≠ 0) (hT3 : Tt3 i r < PCI) (hab : T4a < T4b)
    (hb : T4b < PCI) :
    f { i with Tt4 := T4a } r < f { i with Tt4 := T4b } r := by
  have key : ∀ x : ℝ,
      f { i with Tt4 := x } r = cp * (x - Tt3 i r) / (PCI - x) := by
    intro x
    rw [f, dm_f, dm_fp_update_Tt4, Tt3_update_Tt4,
      show ({ i with Tt4 := x } : EngineFlightInput).Tt4 = x from rfl,
      mul_assoc, div_right_comm, mul_div_cancel_left₀ _ hfp]
  rw [key T4a, key T4b]
  have h1 : 0 < PCI - T4b := by linarith
  have h2 : 0 < PCI - T4a := by linarith
  rw [div_lt_div_iff₀ h2 h1]
  have hcp : (0:ℝ) < cp := by norm_num [cp]
  nlinarith [mul_pos (mul_pos hcp (sub_pos.mpr hab)) (sub_pos.mpr hT3)]

/-- Witness for C6: at `inpA`, raising `Tt4` from 400 K to 500 K strictly
raises the fuel/air ratio. -/
theorem c6_witness :
    dm_fp inpA ≠ 0 ∧ Tt3 inpA 1 < PCI ∧ (400:ℝ) < 500 ∧ (500:ℝ) < PCI ∧
    f { inpA with Tt4 := 400 } 1 < f { inpA with Tt4 := 500 } 1 := by
  have hfp : dm_fp inpA ≠ 0 := by rw [inpA_dm_fp]; norm_num
  have hT3 : Tt3 inpA 1 < PCI := by rw [inpA_Tt3]; norm_num [PCI]
  have hb : (500:ℝ) < PCI := by norm_num [PCI]
  exact ⟨hfp, hT3, by norm_num, hb,
    c6_f_strict_mono inpA 1 400 500 hfp hT3 (by norm_num) hb⟩

/-- Claim C7 fails on the code: the returned TSFC is `dm_f / ST`, not
`dm_f / T`.  At the concrete input `inpA` (total mass flow 2, positive
thrust, positive fuel flow) the two differ. -/
theorem c7_counterexample : TSFC inpA 1 ≠ dm_f inpA 1 / T inpA 1 := by
  rw [TSFC, ST, div_div_eq_mul_div, show inpA.dm = 2 from rfl]
  intro h
  have hT := inpA_T_ne
  rw [div_eq_div_iff hT hT] at h
  have hdmf : dm_f inpA 1 ≠ 0 := by rw [inpA_dm_f]; norm_num
  have hcancel : dm_f inpA 1 * 2 = dm_f inpA 1 := mul_right_cancel₀ hT h
  exact hdmf (by linarith)

/-- Claim C7 amended: the returned TSFC is the fuel mass flow divided by the
specific thrust, i.e. `dm · dm_f / T` — fuel flow per unit specific thrust,
not per unit thrust. -/
theorem c7_amended (i : EngineFlightInput) (r : ℝ)
    (hdm : i.dm ≠ 0) (hT : T i r ≠ 0) :
    TSFC i r = i.dm * dm_f i r / T i r := by
  rw [TSFC, ST, div_div_eq_mul_div]
  ring

/-- Witness for the amended C7 at the concrete input `inpA`. -/
theorem c7_witness :
    inpA.dm ≠ 0 ∧ T inpA 1 ≠ 0 ∧
    TSFC inpA 1 = inpA.dm * dm_f inpA 1 / T inpA 1 :=
  have hdm : inpA.dm ≠ 0 := by norm_num [inpA]
  ⟨hdm, inpA_T_ne, c7_amended inpA 1 hdm inpA_T_ne⟩

/-- Claim C8 fails on the code: at the reference scenario the isentropic
inlet relations give `Tt2 = 321.203925 K` exactly and
`Pt2 ∈ (144144, 144146) Pa` — more than 28 K above the claimed `292.89 K` and
more than 4500 Pa above the claimed `139586 Pa`, far outside any tolerance
the relations imply. -/
theorem c8_counterexample :
    Tt2 inpC = 321.203925 ∧ 292.89 + 28 < Tt2 inpC ∧
    139586 + 4500 < Pt2 inpC := by
  refine ⟨inpC_Tt2, by rw [inpC_Tt2]; norm_num, ?_⟩
  have := inpC_Pt2_lb
  linarith

/-- Claim C8 amended: the reference scenario reproduces the isentropic inlet
relations with `Tt2 = 321.203925 K` and `Pt2 ≈ 144145 Pa` (the claimed
292.89 K / 139586 Pa are not what the relations give). -/
theorem c8_amended :
    Tt2 inpC = 321.203925 ∧ 144144 < Pt2 inpC ∧ Pt2 inpC < 144146 :=
  ⟨inpC_Tt2, inpC_Pt2_lb, inpC_Pt2_ub⟩

/-- Claim C9: an empty ratio sweep returns normally with every one of the
fifteen output lists empty. -/
theorem c9_empty_sweep (i : EngineFlightInput) :
    compute_engine_performance i [] = emptyResults ∧
    (compute_engine_performance i []).T_list = [] ∧
    (compute_engine_performance i []).T_fp_list = [] ∧
    (compute_engine_performance i []).T_fs_list = [] ∧
    (compute_engine_performance i []).ST_list = [] ∧
    (compute_engine_performance i []).TSFC_list = [] ∧
    (compute_engine_performance i []).Wprop_list = [] ∧
    (compute_engine_performance i []).Wcin_list = [] ∧
    (compute_engine_performance i []).Wth_list = [] ∧
    (compute_engine_performance i []).nprop_list = [] ∧
    (compute_engine_performance i []).nth_list = [] ∧
    (compute_engine_performance i []).nglob_list = [] ∧
    (compute_engine_performance i []).A1_list = [] ∧
    (compute_engine_performance i []).A2_list = [] ∧
    (compute_engine_performance i []).A8_list = [] ∧
    (compute_engine_performance i []).A18_list = [] :=
  ⟨rfl, rfl, rfl, rfl, rfl, rfl, rfl, rfl, rfl, rfl, rfl, rfl, rfl, rfl, rfl,
    rfl⟩

/-- Claim C10: the secondary-flow outputs do not depend on the sweep: every
entry of `T_fs_list` (resp. `A18_list`) equals the ratio-independent value
`T_fs i` (resp. `A18 i`), and two calls whose ratio lists merely have equal
length produce identical `T_fs_list` and `A18_list`. -/
theorem c10_secondary_independent (i : EngineFlightInput) (l₁ l₂ : List ℝ)
    (hlen : l₁.length = l₂.length) :
    (∀ x ∈ (compute_engine_performance i l₁).T_fs_list, x = T_fs i) ∧
    (∀ x ∈ (compute_engine_performance i l₁).A18_list, x = A18 i) ∧
    (compute_engine_performance i l₁).T_fs_list =
      (compute_engine_performance i l₂).T_fs_list ∧
    (compute_engine_performance i l₁).A18_list =
      (compute_engine_performance i l₂).A18_list := by
  rw [compute_eq_map i l₁, compute_eq_map i l₂]
  refine ⟨?_, ?_, ?_, ?_⟩
  · intro x hx
    simp only [List.mem_map] at hx
    obtain ⟨r, -, h⟩ := hx
    exact h.symm
  · intro x hx
    simp only [List.mem_map] at hx
    obtain ⟨r, -, h⟩ := hx
    exact h.symm
  · show l₁.map (fun _ => T_fs i) = l₂.map (fun _ => T_fs i)
    rw [List.map_const', List.map_const', hlen]
  · show l₁.map (fun _ => A18 i) = l₂.map (fun _ => A18 i)
    rw [List.map_const', List.map_const', hlen]

/-- Witness for C10 with two different equal-length sweeps. -/
theorem c10_witness :
    List.length [(1:ℝ), 2] = List.length [(3:ℝ), 4] ∧
    (compute_engine_performance inpA [1, 2]).T_fs_list =
      (compute_engine_performance inpA [3, 4]).T_fs_list :=
  ⟨rfl, (c10_secondary_independent inpA [1, 2] [3, 4] rfl).2.2.1⟩

end Turbojet
